import Mathlib

/-!
Shallow embedding of the maltose repository's outbound request engine
(src/net/mclient/mclient_request.go) and inbound handler dispatch
(src/net/mhttp/mhttp_handler.go), with theorems checking the natural
language specification against the code.

Go strings are modelled as lists of characters; Go readers as streams
with an explicit consumed flag; the transport client and the context
cancellation signal as oracles indexed by the attempt number.
-/

namespace Maltose

/-- Go string, modelled byte-for-byte as a list of characters. -/
abbrev GoStr := List Char

/-- strings.HasPrefix. -/
def goStartsWith (s pre : GoStr) : Bool :=
  pre.isPrefixOf s

/-- strings.HasSuffix. -/
def goEndsWith (s suf : GoStr) : Bool :=
  suf.isSuffixOf s

/-- The literal "http://" tested by attemptRequest before prepending the base URL. -/
def httpScheme : GoStr := ['h', 't', 't', 'p', ':', '/', '/']

/-- The literal "https://" tested by attemptRequest before prepending the base URL. -/
def httpsScheme : GoStr := ['h', 't', 't', 'p', 's', ':', '/', '/']

/--
URL composition from attemptRequest (mclient_request.go lines 401-414):
when a base URL is configured and the path does not itself carry a scheme,
join base and path, adding a slash when neither side has one and stripping
the path's first character when both sides have one.
-/
def composeFullURL (baseURL urlPath : GoStr) : GoStr :=
  if baseURL != [] && !(goStartsWith urlPath httpScheme) && !(goStartsWith urlPath httpsScheme) then
    if !(goEndsWith baseURL ['/']) && !(goStartsWith urlPath ['/']) then
      (baseURL ++ ['/']) ++ urlPath
    else if goEndsWith baseURL ['/'] && goStartsWith urlPath ['/'] then
      baseURL ++ urlPath.drop 1
    else
      baseURL ++ urlPath
  else
    urlPath

/- ---------------------------------------------------------------------------
Middleware chain (mclient_request.go lines 480-502).
A handler consumes a request and produces a result; a middleware wraps a
handler.  The source builds the chain with the loop
  for i := len(middlewares) - 1; i >= 0; i-- { handler = middlewares[i](handler) }
which is a left fold over the reversed middleware list.
--------------------------------------------------------------------------- -/

/-- The handler shape used by the client middleware chain. -/
def HandlerFn (Req Res : Type) : Type := Req → Res

/-- MiddlewareFunc: a transformation from handler to handler. -/
def MiddlewareFn (Req Res : Type) : Type := HandlerFn Req Res → HandlerFn Req Res

/--
The chain-building loop of attemptRequest: starting from the terminal
handler, wrap with each middleware at index len-1 down to index 0.
-/
def applyMiddlewares {Req Res : Type} (mws : List (MiddlewareFn Req Res))
    (terminal : HandlerFn Req Res) : HandlerFn Req Res :=
  mws.reverse.foldl (fun handler m => m handler) terminal

/-- The reverse-index loop is the right fold of middleware application. -/
theorem applyMiddlewares_eq_foldr {Req Res : Type} (mws : List (MiddlewareFn Req Res))
    (terminal : HandlerFn Req Res) :
    applyMiddlewares mws terminal = mws.foldr (fun m handler => m handler) terminal := by
  simp [applyMiddlewares, List.foldl_reverse]

/-- A trace-recording middleware: logs entry on the way in and exit on the way out. -/
def tagMW (name : String) : MiddlewareFn (List String) (List String) :=
  fun next => fun trace => (next (trace ++ [name ++ ":request"])) ++ [name ++ ":response"]

/-- A short-circuiting middleware: returns its own result without delegating. -/
def shortCircuitMW (name : String) : MiddlewareFn (List String) (List String) :=
  fun _next => fun trace => trace ++ [name ++ ":short-circuit"]

/-- A trace-recording terminal handler, standing for the transport round trip. -/
def terminalTraceHandler : HandlerFn (List String) (List String) :=
  fun trace => trace ++ ["terminal"]

end Maltose

namespace Maltose

theorem goEndsWith_append_slash (b : GoStr) : goEndsWith (b ++ ['/']) ['/'] = true := by
  simp [goEndsWith]

theorem goStartsWith_cons_slash (p : GoStr) : goStartsWith ('/' :: p) ['/'] = true := by
  simp [goStartsWith]

theorem goStartsWith_slash_httpScheme (p : GoStr) :
    goStartsWith ('/' :: p) httpScheme = false := by
  simp [goStartsWith, httpScheme, List.isPrefixOf_cons₂]

theorem goStartsWith_slash_httpsScheme (p : GoStr) :
    goStartsWith ('/' :: p) httpsScheme = false := by
  simp [goStartsWith, httpsScheme, List.isPrefixOf_cons₂]

end Maltose

namespace Maltose

/--
C2: the middleware chain wraps the terminal handler in reverse index order,
so the middleware at index 0 is outermost; a chain registered as A then B
observes the request in order A, B on the way in and B, A on the way out;
a short-circuit in A invokes neither B nor the terminal handler.
-/
theorem middleware_chain_index_zero_outermost :
    (∀ (Req Res : Type) (A B : MiddlewareFn Req Res) (terminal : HandlerFn Req Res),
      applyMiddlewares [A, B] terminal = A (B terminal))
    ∧ applyMiddlewares [tagMW "A", tagMW "B"] terminalTraceHandler []
      = ["A:request", "B:request", "terminal", "B:response", "A:response"]
    ∧ applyMiddlewares [shortCircuitMW "A", tagMW "B"] terminalTraceHandler []
      = ["A:short-circuit"] := by
  refine ⟨fun Req Res A B terminal => ?_, ?_, ?_⟩
  · simp [applyMiddlewares]
  · simp [applyMiddlewares, tagMW, terminalTraceHandler]
  · simp [applyMiddlewares, tagMW, shortCircuitMW, terminalTraceHandler]

end Maltose

namespace Maltose

/--
C6 counterexample: with base "http://x" and path "//y" the code composes
"http://x//y", a double separating slash, so the composition does not
always yield exactly one separating slash.
-/
theorem composeFullURL_double_slash_counterexample :
    composeFullURL ("http://x".toList) ("//y".toList) = "http://x//y".toList
    ∧ "http://x//y".toList ≠ "http://x/y".toList := by
  exact ⟨by decide, by decide⟩

/--
C6 amended: when the base URL ends with at most one slash and the path
begins with at most one slash (and the path carries no scheme of its own),
the composed URL joins them with exactly one separating slash; in
particular both spec examples hold.
-/
theorem composeFullURL_single_slash_cases (b p : GoStr)
    (hb : b ≠ [])
    (hbs : goEndsWith b ['/'] = false)
    (hps : goStartsWith p ['/'] = false)
    (hh : goStartsWith p httpScheme = false)
    (hhs : goStartsWith p httpsScheme = false) :
    composeFullURL b p = b ++ '/' :: p
    ∧ composeFullURL (b ++ ['/']) p = b ++ '/' :: p
    ∧ composeFullURL b ('/' :: p) = b ++ '/' :: p
    ∧ composeFullURL (b ++ ['/']) ('/' :: p) = b ++ '/' :: p := by
  refine ⟨?_, ?_, ?_, ?_⟩
  · simp [composeFullURL, hb, hbs, hps, hh, hhs]
  · simp [composeFullURL, hps, hh, hhs, goEndsWith_append_slash]
  · simp [composeFullURL, hb, hbs, goStartsWith_cons_slash,
      goStartsWith_slash_httpScheme, goStartsWith_slash_httpsScheme]
  · simp [composeFullURL, goEndsWith_append_slash, goStartsWith_cons_slash,
      goStartsWith_slash_httpScheme, goStartsWith_slash_httpsScheme]

/--
C6 witness: instantiating the amended statement at base "http://x" and
path "y" yields the two spec examples.
-/
theorem composeFullURL_single_slash_cases_witness :
    composeFullURL ("http://x".toList) ("y".toList) = "http://x".toList ++ '/' :: "y".toList
    ∧ composeFullURL ("http://x".toList ++ ['/']) ('/' :: "y".toList)
      = "http://x".toList ++ '/' :: "y".toList :=
  ⟨(composeFullURL_single_slash_cases ("http://x".toList) ("y".toList)
      (by decide) (by decide) (by decide) (by decide) (by decide)).1,
   (composeFullURL_single_slash_cases ("http://x".toList) ("y".toList)
      (by decide) (by decide) (by decide) (by decide) (by decide)).2.2.2⟩

end Maltose

namespace Maltose

/- ---------------------------------------------------------------------------
Contract checker (src/net/mhttp/mhttp_handler.go, checkMethodSignature).
A reflect.Type of a method is modelled by the features the checker reads:
input and output positions, each with pointer-ness, referenced type name,
and whether it implements the context.Context or error interface.
--------------------------------------------------------------------------- -/

/-- The features of a reflect.Type read by checkMethodSignature. -/
structure GoType where
  isPtr : Bool
  elemName : GoStr
  implementsContext : Bool
  implementsError : Bool
deriving DecidableEq

instance : Inhabited GoType := ⟨⟨false, [], false, false⟩⟩

/-- A method type: NumIn inputs (receiver first) and NumOut outputs. -/
structure MethodSig where
  ins : List GoType
  outs : List GoType
deriving DecidableEq

/-- Error text of the arity check (source quotes the required shape). -/
def msgSignature : String :=
  "invalid method signature, required: func(*Controller) (context.Context, *XxxReq) (*XxxRes, error)"

/-- Error text of the context check. -/
def msgContext : String := "first parameter should be context.Context"

/-- Error text of the request pointer check. -/
def msgReqPtr : String := "request parameter should be pointer type"

/-- Error text of the request suffix check (the source quotes Req). -/
def msgReqSuffix : String := "request parameter should end with Req"

/-- Error text of the response pointer check. -/
def msgResPtr : String := "response parameter should be pointer type"

/-- Error text of the response suffix check (the source quotes Res). -/
def msgResSuffix : String := "response parameter should end with Res"

/-- Error text of the error-interface check. -/
def msgError : String := "second return value should be error"

/-- The Req suffix convention on request type names. -/
def reqSuffix : GoStr := ['R', 'e', 'q']

/-- The Res suffix convention on response type names. -/
def resSuffix : GoStr := ['R', 'e', 's']

/--
checkMethodSignature (mhttp_handler.go lines 53-88): arity, context
capability of input 1, pointer plus Req suffix of input 2, pointer plus
Res suffix of output 0, error capability of output 1, in that order.
-/
def checkMethodSignature (typ : MethodSig) : Option String :=
  if typ.ins.length != 3 || typ.outs.length != 2 then
    some msgSignature
  else if !(typ.ins.getD 1 default).implementsContext then
    some msgContext
  else if !(typ.ins.getD 2 default).isPtr then
    some msgReqPtr
  else if !(goEndsWith (typ.ins.getD 2 default).elemName reqSuffix) then
    some msgReqSuffix
  else if !(typ.outs.getD 0 default).isPtr then
    some msgResPtr
  else if !(goEndsWith (typ.outs.getD 0 default).elemName resSuffix) then
    some msgResSuffix
  else if !(typ.outs.getD 1 default).implementsError then
    some msgError
  else
    none

/--
Modelled from the spec: the handler registration path (not under src/;
only checkMethodSignature is) runs the contract check once per handler
registration and rejects the handler on any violation, so a rejected
handler is never stored for dispatch (spec sections 4.5 and 3, Handler
Contract).
-/
def registerHandler {α β : Type} (typ : MethodSig) (h : α → β) : Option (α → β) :=
  match checkMethodSignature typ with
  | some _ => none
  | none => some h

/--
Modelled from the spec: request-time dispatch invokes only a handler that
registration stored; with no stored handler nothing is invoked (spec
section 4.5: a violation must never reach request-handling time).
-/
def dispatchRegistered {α β : Type} (reg : Option (α → β)) (req : α) : Option β :=
  reg.map (fun h => h req)

end Maltose

namespace Maltose

/--
C4: checkMethodSignature performs its five checks in order, each violated
check yielding its own distinct error; a signature failing any check is
rejected at registration and the handler is never invoked at dispatch.
-/
theorem checkMethodSignature_ordered_checks :
    (∀ typ : MethodSig, (typ.ins.length ≠ 3 ∨ typ.outs.length ≠ 2) →
      checkMethodSignature typ = some msgSignature)
    ∧ (∀ typ : MethodSig, typ.ins.length = 3 → typ.outs.length = 2 →
      (typ.ins.getD 1 default).implementsContext = false →
      checkMethodSignature typ = some msgContext)
    ∧ (∀ typ : MethodSig, typ.ins.length = 3 → typ.outs.length = 2 →
      (typ.ins.getD 1 default).implementsContext = true →
      (typ.ins.getD 2 default).isPtr = false →
      checkMethodSignature typ = some msgReqPtr)
    ∧ (∀ typ : MethodSig, typ.ins.length = 3 → typ.outs.length = 2 →
      (typ.ins.getD 1 default).implementsContext = true →
      (typ.ins.getD 2 default).isPtr = true →
      goEndsWith (typ.ins.getD 2 default).elemName reqSuffix = false →
      checkMethodSignature typ = some msgReqSuffix)
    ∧ (∀ typ : MethodSig, typ.ins.length = 3 → typ.outs.length = 2 →
      (typ.ins.getD 1 default).implementsContext = true →
      (typ.ins.getD 2 default).isPtr = true →
      goEndsWith (typ.ins.getD 2 default).elemName reqSuffix = true →
      (typ.outs.getD 0 default).isPtr = false →
      checkMethodSignature typ = some msgResPtr)
    ∧ (∀ typ : MethodSig, typ.ins.length = 3 → typ.outs.length = 2 →
      (typ.ins.getD 1 default).implementsContext = true →
      (typ.ins.getD 2 default).isPtr = true →
      goEndsWith (typ.ins.getD 2 default).elemName reqSuffix = true →
      (typ.outs.getD 0 default).isPtr = true →
      goEndsWith (typ.outs.getD 0 default).elemName resSuffix = false →
      checkMethodSignature typ = some msgResSuffix)
    ∧ (∀ typ : MethodSig, typ.ins.length = 3 → typ.outs.length = 2 →
      (typ.ins.getD 1 default).implementsContext = true →
      (typ.ins.getD 2 default).isPtr = true →
      goEndsWith (typ.ins.getD 2 default).elemName reqSuffix = true →
      (typ.outs.getD 0 default).isPtr = true →
      goEndsWith (typ.outs.getD 0 default).elemName resSuffix = true →
      (typ.outs.getD 1 default).implementsError = false →
      checkMethodSignature typ = some msgError)
    ∧ (∀ typ : MethodSig, typ.ins.length = 3 → typ.outs.length = 2 →
      (typ.ins.getD 1 default).implementsContext = true →
      (typ.ins.getD 2 default).isPtr = true →
      goEndsWith (typ.ins.getD 2 default).elemName reqSuffix = true →
      (typ.outs.getD 0 default).isPtr = true →
      goEndsWith (typ.outs.getD 0 default).elemName resSuffix = true →
      (typ.outs.getD 1 default).implementsError = true →
      checkMethodSignature typ = none)
    ∧ ([msgSignature, msgContext, msgReqPtr, msgReqSuffix,
        msgResPtr, msgResSuffix, msgError].Pairwise (· ≠ ·))
    ∧ (∀ (typ : MethodSig) (e : String), checkMethodSignature typ = some e →
      ∀ (α β : Type) (h : α → β) (req : α),
        registerHandler typ h = none ∧ dispatchRegistered (registerHandler typ h) req = none) := by
  refine ⟨?_, ?_, ?_, ?_, ?_, ?_, ?_, ?_, ?_, ?_⟩
  · intro typ harity
    rcases harity with h | h <;>
      simp [checkMethodSignature, h]
  · intro typ h1 h2 hctx
    obtain ⟨ins, outs⟩ := typ
    rcases List.length_eq_three.mp h1 with ⟨i0, i1, i2, rfl⟩
    rcases List.length_eq_two.mp h2 with ⟨o0, o1, rfl⟩
    simp_all [checkMethodSignature]
  · intro typ h1 h2 hctx hptr
    obtain ⟨ins, outs⟩ := typ
    rcases List.length_eq_three.mp h1 with ⟨i0, i1, i2, rfl⟩
    rcases List.length_eq_two.mp h2 with ⟨o0, o1, rfl⟩
    simp_all [checkMethodSignature]
  · intro typ h1 h2 hctx hptr hsuf
    obtain ⟨ins, outs⟩ := typ
    rcases List.length_eq_three.mp h1 with ⟨i0, i1, i2, rfl⟩
    rcases List.length_eq_two.mp h2 with ⟨o0, o1, rfl⟩
    simp_all [checkMethodSignature]
  · intro typ h1 h2 hctx hptr hsuf hrptr
    obtain ⟨ins, outs⟩ := typ
    rcases List.length_eq_three.mp h1 with ⟨i0, i1, i2, rfl⟩
    rcases List.length_eq_two.mp h2 with ⟨o0, o1, rfl⟩
    simp_all [checkMethodSignature]
  · intro typ h1 h2 hctx hptr hsuf hrptr hrsuf
    obtain ⟨ins, outs⟩ := typ
    rcases List.length_eq_three.mp h1 with ⟨i0, i1, i2, rfl⟩
    rcases List.length_eq_two.mp h2 with ⟨o0, o1, rfl⟩
    simp_all [checkMethodSignature]
  · intro typ h1 h2 hctx hptr hsuf hrptr hrsuf herr
    obtain ⟨ins, outs⟩ := typ
    rcases List.length_eq_three.mp h1 with ⟨i0, i1, i2, rfl⟩
    rcases List.length_eq_two.mp h2 with ⟨o0, o1, rfl⟩
    simp_all [checkMethodSignature]
  · intro typ h1 h2 hctx hptr hsuf hrptr hrsuf herr
    obtain ⟨ins, outs⟩ := typ
    rcases List.length_eq_three.mp h1 with ⟨i0, i1, i2, rfl⟩
    rcases List.length_eq_two.mp h2 with ⟨o0, o1, rfl⟩
    simp_all [checkMethodSignature]
  · decide
  · intro typ e hcheck α β h req
    constructor
    · simp [registerHandler, hcheck]
    · simp [dispatchRegistered, registerHandler, hcheck]

/-- A well-formed signature: receiver, context, pointer to a Req type in; pointer to a Res type and error out. -/
def goodSig : MethodSig :=
  { ins := [default, ⟨false, [], true, false⟩, ⟨true, ['H', 'e', 'l', 'l', 'o'] ++ reqSuffix, false, false⟩],
    outs := [⟨true, ['H', 'e', 'l', 'l', 'o'] ++ resSuffix, false, false⟩, ⟨false, [], false, true⟩] }

/-- A signature whose second input does not implement context.Context. -/
def badCtxSig : MethodSig :=
  { ins := [default, ⟨false, [], false, false⟩, ⟨true, ['H'] ++ reqSuffix, false, false⟩],
    outs := [⟨true, ['H'] ++ resSuffix, false, false⟩, ⟨false, [], false, true⟩] }

/--
C4 witness: the ordered-check theorem applied to concrete signatures — a
wrong arity, a non-context second input (rejected at registration, never
dispatched), and a fully conforming signature.
-/
theorem checkMethodSignature_ordered_checks_witness :
    checkMethodSignature { ins := [], outs := [] } = some msgSignature
    ∧ checkMethodSignature badCtxSig = some msgContext
    ∧ checkMethodSignature goodSig = none
    ∧ registerHandler badCtxSig (fun n : Nat => n + 1) = none
    ∧ dispatchRegistered (registerHandler badCtxSig (fun n : Nat => n + 1)) 0 = none :=
  ⟨checkMethodSignature_ordered_checks.1 { ins := [], outs := [] } (Or.inl (by decide)),
   (checkMethodSignature_ordered_checks.2.1 badCtxSig (by decide) (by decide) (by decide)),
   (checkMethodSignature_ordered_checks.2.2.2.2.2.2.2.1 goodSig (by decide) (by decide)
     (by decide) (by decide) (by decide) (by decide) (by decide) (by decide)),
   (checkMethodSignature_ordered_checks.2.2.2.2.2.2.2.2.2 badCtxSig msgContext
     (checkMethodSignature_ordered_checks.2.1 badCtxSig (by decide) (by decide) (by decide))
     Nat Nat (fun n => n + 1) 0).1,
   (checkMethodSignature_ordered_checks.2.2.2.2.2.2.2.2.2 badCtxSig msgContext
     (checkMethodSignature_ordered_checks.2.1 badCtxSig (by decide) (by decide) (by decide))
     Nat Nat (fun n => n + 1) 0).2⟩

end Maltose

namespace Maltose

/- ---------------------------------------------------------------------------
Handler dispatch (src/net/mhttp/mhttp_handler.go, handleRequest).
The binding collaborator reports per-field validation failures as an
ordered slice of field errors; Translate turns them into a map keyed by
field namespace, and the dispatcher ranges over that map.  Ranging over a
Go map yields its entries in an unspecified order, so the errMsgs slice is
modelled as the map-iteration sequence, any permutation of the reported
messages being possible.
--------------------------------------------------------------------------- -/

/-- The error codes of the mcode collaborator used by the dispatcher. -/
inductive MCode where
  | codeValidationFailed
  | codeInternalError
deriving DecidableEq

/-- An error value crossing handleRequest. -/
inductive GoError where
  | validationErrors (translated : List String)
  | codeError (code : MCode) (message : String)
  | plainError (message : String)
deriving DecidableEq

/--
Which errMsgs sequences can arise from ranging over the translated map of
a failure whose collaborator-reported field errors are the given ordered
(field, message) list: any permutation of the reported messages.
-/
def possibleTranslateOrder (reportedFields : List (String × String)) (msgs : List String) : Prop :=
  msgs.Perm (reportedFields.map Prod.snd)

/-- The outcome of handleRequest: an error, or success with the handler response attached. -/
inductive HandleResult (ρ : Type) where
  | errorOut (e : GoError)
  | okWithResponse (resp : ρ)
deriving DecidableEq

/--
handleRequest (mhttp_handler.go lines 18-50): on a binding failure that is
a validator.ValidationErrors, collect the translated messages and return a
codeValidationFailed error with the first one (falling through to the raw
error when the collection is empty); other binding failures are returned
unchanged.  On binding success the handler runs; a non-nil handler error
is returned unchanged, otherwise the response is attached.
-/
def handleRequest {ρ : Type} (bindErr : Option GoError) (callResp : ρ)
    (callErr : Option GoError) : HandleResult ρ :=
  match bindErr with
  | some err =>
    match err with
    | .validationErrors translated =>
      match translated with
      | m :: _ => .errorOut (.codeError .codeValidationFailed m)
      | [] => .errorOut err
    | _ => .errorOut err
  | none =>
    match callErr with
    | some e => .errorOut e
    | none => .okWithResponse callResp

end Maltose

namespace Maltose

/--
C5 counterexample: the same binding failure, with fields reported by the
collaborator in the order F1 then F2, admits both map-iteration orders,
and the dispatcher surfaces a different field message under each, so the
surfaced message is not determined by the collaborator's reported order.
-/
theorem handleRequest_iteration_order_dependence :
    possibleTranslateOrder [("F1", "m1"), ("F2", "m2")] ["m1", "m2"]
    ∧ possibleTranslateOrder [("F1", "m1"), ("F2", "m2")] ["m2", "m1"]
    ∧ handleRequest (some (.validationErrors ["m1", "m2"])) (0 : Nat) none
      ≠ handleRequest (some (.validationErrors ["m2", "m1"])) (0 : Nat) none := by
  refine ⟨?_, ?_, by decide⟩
  · simp [possibleTranslateOrder]
  · simp [possibleTranslateOrder]
    exact (List.Perm.swap "m2" "m1" []).symm

/--
C5 amended: on a validation binding failure the dispatcher returns a
single codeValidationFailed error carrying the first message in the
map-iteration order of the translated field errors, discarding the rest
(that order is Go map order, not necessarily the collaborator's reported
order); a non-validation binding failure is propagated unchanged, and the
raw error is likewise propagated when the translated collection is empty.
-/
theorem handleRequest_first_message_wins :
    (∀ (m : String) (rest : List String),
      handleRequest (some (.validationErrors (m :: rest))) (0 : Nat) none
        = .errorOut (.codeError .codeValidationFailed m))
    ∧ (∀ e : String, handleRequest (some (.plainError e)) (0 : Nat) none
        = .errorOut (.plainError e))
    ∧ (∀ (c : MCode) (e : String), handleRequest (some (.codeError c e)) (0 : Nat) none
        = .errorOut (.codeError c e))
    ∧ handleRequest (some (.validationErrors [])) (0 : Nat) none
        = .errorOut (.validationErrors [])
    ∧ (∀ (resp : Nat) (he : GoError), handleRequest none resp (some he) = .errorOut he)
    ∧ (∀ resp : Nat, handleRequest none resp none = .okWithResponse resp) := by
  refine ⟨?_, ?_, ?_, ?_, ?_, ?_⟩ <;> intros <;> rfl

end Maltose

namespace Maltose

/- ---------------------------------------------------------------------------
Body streams (mclient_request.go).  A Go reader is a cursor over bytes:
reading it drains it.  The engine distinguishes a caller-supplied reader
wrapped as-is (the io.Reader case of Data, line 164) from a reader the
library constructs over bytes it owns (strings.NewReader, bytes.NewReader).
--------------------------------------------------------------------------- -/

/-- An in-memory reader with its cursor state: reading it once drains it. -/
structure ByteStream where
  data : GoStr
  consumed : Bool
deriving DecidableEq

/--
io.ReadAll: an unconsumed stream yields its bytes, a consumed one yields
nothing; either way the stream is left drained.  Readers over in-memory
bytes never fail, so the read-error fallback of attemptRequest (lines
443-446) is unreachable in this model.
-/
def ByteStream.readAll (s : ByteStream) : GoStr × ByteStream :=
  (if s.consumed then [] else s.data, { s with consumed := true })

/-- A request body: a caller-supplied reader passed through, or a library-owned reader over materialized bytes. -/
inductive BodyStream where
  | passthrough (s : ByteStream)
  | owned (s : ByteStream)
deriving DecidableEq

/-- The reader inside a body, whichever way it was wrapped. -/
def BodyStream.inner : BodyStream → ByteStream
  | .passthrough s => s
  | .owned s => s

/-- The parts of the embedded *http.Request that the engine reads and writes. -/
structure HttpRequestE where
  method : String
  header : List (String × String)
  body : Option BodyStream
deriving DecidableEq

/-- The request allocated by the nil-guards: empty method, empty header, no body. -/
def emptyHttpRequest : HttpRequestE := { method := "", header := [], body := none }

/-- http.Header.Set / url.Values.Set: replace the value under a key or add it. -/
def headerSet (h : List (String × String)) (k v : String) : List (String × String) :=
  if h.any (fun kv => kv.1 == k) then
    h.map (fun kv => if kv.1 == k then (k, v) else kv)
  else
    h ++ [(k, v)]

/-- http.Header.Get: first value under the key, or empty. -/
def headerGet (h : List (String × String)) (k : String) : String :=
  match h.find? (fun kv => kv.1 == k) with
  | some kv => kv.2
  | none => ""

/-- Copy every key with its first value from src into dst via Set (lines 455-471). -/
def headerSetAll (dst src : List (String × String)) : List (String × String) :=
  src.foldl (fun d kv => headerSet d kv.1 kv.2) dst

/-- The mutable builder state of mclient.Request read by the executor. -/
structure MRequest where
  request : Option HttpRequestE
  retryCount : Int
  retryInterval : Int
  queryParams : List (String × String)
  formParams : List (String × String)
  retryCondition : Option (Option Nat → Option String → Bool)

/-- NewRequest (lines 51-58): the embedded http.Request starts nil. -/
def newRequest : MRequest :=
  { request := none, retryCount := 0, retryInterval := 0,
    queryParams := [], formParams := [], retryCondition := none }

/-- SetRetry (lines 247-251). -/
def setRetry (r : MRequest) (count interval : Int) : MRequest :=
  { r with retryCount := count, retryInterval := interval }

/-- SetForm (lines 209-212). -/
def setForm (r : MRequest) (k v : String) : MRequest :=
  { r with formParams := headerSet r.formParams k v }

/-- SetQuery (lines 191-194). -/
def setQuery (r : MRequest) (k v : String) : MRequest :=
  { r with queryParams := headerSet r.queryParams k v }

/--
shouldRetry (lines 261-280): a custom condition wins if set; the default
retries on any transport error, else on status 500 and above or 429, else
not.  The first argument of the condition is the raw response (its status,
or none when the response is nil), the second the transport error.
-/
def shouldRetryE (r : MRequest) (resp : Option Nat) (err : Option String) : Bool :=
  match r.retryCondition with
  | some cond => cond resp err
  | none =>
    if err.isSome then
      true
    else
      match resp with
      | some status => decide (500 ≤ status) || status == 429
      | none => false

/-- The input shapes accepted by Data (line 158): string, bytes, reader, or a structured value carried as its JSON serialization outcome. -/
inductive DataInput where
  | strInput (s : GoStr)
  | bytesInput (b : GoStr)
  | readerInput (s : ByteStream)
  | structuredInput (marshalResult : Option GoStr)

/--
Data (lines 151-184).  Strings and byte slices become fresh library-owned
readers; an io.Reader is wrapped by io.NopCloser and stored as-is; any
other value is JSON-marshalled (the outcome is the oracle carried by the
input): on failure the error is logged to the external logger and the
request returned with its body untouched, on success the bytes become an
owned reader and the content type defaults to application/json when unset.
-/
def dataMethod (r : MRequest) (d : DataInput) : MRequest :=
  let q := match r.request with
    | none => emptyHttpRequest
    | some q => q
  match d with
  | .strInput s => { r with request := some { q with body := some (.owned ⟨s, false⟩) } }
  | .bytesInput b => { r with request := some { q with body := some (.owned ⟨b, false⟩) } }
  | .readerInput s => { r with request := some { q with body := some (.passthrough s) } }
  | .structuredInput none => { r with request := some q }
  | .structuredInput (some jsonBytes) =>
    let q' := { q with body := some (.owned ⟨jsonBytes, false⟩) }
    if headerGet q'.header "Content-Type" == "" then
      { r with request := some { q' with
        header := headerSet q'.header "Content-Type" "application/json" } }
    else
      { r with request := some q' }

/-- url.Values.Encode, modelled as a plain key=value join of the entries. -/
def encodeValues (params : List (String × String)) : GoStr :=
  (String.intercalate "&" (params.map (fun kv => kv.1 ++ "=" ++ kv.2))).toList

/-- Query-string appending (lines 416-423). -/
def appendQueryParams (fullURL : GoStr) (queryParams : List (String × String)) : GoStr :=
  if 0 < queryParams.length then
    if fullURL.contains '?' then
      fullURL ++ ('&' :: encodeValues queryParams)
    else
      fullURL ++ ('?' :: encodeValues queryParams)
  else
    fullURL

/-- One transport round trip: Client.Do returns a response or an error. -/
inductive TransportResult where
  | netError (e : String)
  | reply (status : Nat)
deriving DecidableEq

/-- What attemptRequest hands back: (nil, err) on any error, else (resp, nil). -/
inductive AttemptResult where
  | nilWithError (e : String)
  | respOK (status : Nat)
deriving DecidableEq

/-- Outcome of one attempt, with the composed URL, the body bytes the transport reads, and the http.Request stored back into r (line 474). -/
structure AttemptOut where
  result : AttemptResult
  url : GoStr
  sent : Option GoStr
  request : HttpRequestE
deriving DecidableEq

/--
attemptRequest (lines 394-525) for a request whose middleware list is
empty, so the chain degenerates to the direct transport call (the chain
construction itself is applyMiddlewares).  URL: base-path join plus query
string.  Body: form parameters win when present (encoded fresh, content
type forced to the form encoding on the old request header); otherwise the
current body reader is fully read and handed to http.NewRequestWithContext
wrapped in a fresh reader.  Note the aliasing the source creates: line 441
attaches a re-readable copy to the old r.Request, but line 474 replaces
r.Request with the newly built request, whose body is the very reader the
transport drains during the round trip — so the stored body is left
consumed, and the line-441 copy is discarded.
-/
def attemptRequestE (baseURL : GoStr) (clientHeader : List (String × String))
    (r : MRequest) (method : String) (urlPath : GoStr) (tr : TransportResult) : AttemptOut :=
  let fullURL := appendQueryParams (composeFullURL baseURL urlPath) r.queryParams
  let resolved : Option GoStr × List (String × String) :=
    if 0 < r.formParams.length then
      (some (encodeValues r.formParams),
        headerSet (match r.request with | none => [] | some q => q.header)
          "Content-Type" "application/x-www-form-urlencoded")
    else
      match r.request with
      | some q =>
        match q.body with
        | some b => (some (b.inner.readAll).1, q.header)
        | none => (none, q.header)
      | none => (none, [])
  let newReq : HttpRequestE :=
    { method := method,
      header := headerSetAll (headerSetAll [] clientHeader) resolved.2,
      body := resolved.1.map (fun bs => BodyStream.owned ⟨bs, true⟩) }
  match tr with
  | .netError e =>
    { result := .nilWithError e, url := fullURL, sent := resolved.1, request := newReq }
  | .reply status =>
    { result := .respOK status, url := fullURL, sent := resolved.1, request := newReq }

/-- maxAttempts := retryCount + 1, raised to 1 when not positive (lines 340-344). -/
def maxAttemptsOf (retryCount : Int) : Nat :=
  if retryCount + 1 ≤ 0 then 1 else (retryCount + 1).toNat

/--
Modelled from the spec: Response.ParseResponse and Response.Close live in
mclient_response.go, which is not under src/.  Spec section 4.4 gives
Close as idempotent release and Parse as a single decode of the body into
the caller target; no claim here turns on a parse failure, so parsing is
modelled as always succeeding and Close as a no-op on the modelled state.
-/
def parseResponseE (_status : Nat) : Option String := none

/-- Terminal states of DoRequest, including the two runtime panics the code can reach. -/
inductive DoOutcome where
  | parsedResponse (status : Nat)
  | failed (e : String)
  | panicNilDeref
  | ctxCancelled
  | outOfFuel
deriving DecidableEq

/-- Result of the retry loop: terminal state, attempts performed, and the body bytes handed to the transport on each attempt. -/
structure DoResult where
  outcome : DoOutcome
  attempts : Nat
  sentBodies : List (Option GoStr)
deriving DecidableEq

/--
The retry loop of DoRequest (lines 346-379).  Each iteration increments
attempts and runs one attempt.  When the attempt returned (nil, err), the
call r.shouldRetry(resp.Response, err) dereferences the nil resp before
anything else -- a runtime panic.  Otherwise the loop breaks when the
retry predicate declines or the attempt budget is spent; before a retry
the response is closed and, when retryInterval is positive, the wait races
the timer against ctx.Done(), cancellation winning whenever it fires
during the wait (cancelledDuringWait at the current attempt index) and
returning ctx.Err() at once.  Fuel bounds the recursion; called with fuel
equal to maxAttempts it never runs out, since the break fires at
attempts greater or equal maxAttempts.
-/
def doLoop (baseURL : GoStr) (clientHeader : List (String × String))
    (transport : Nat → TransportResult) (cancelledDuringWait : Nat → Bool)
    (method : String) (urlPath : GoStr) (maxAttempts : Nat) :
    Nat → Nat → MRequest → List (Option GoStr) → DoResult
  | 0, attempts, _r, acc => { outcome := .outOfFuel, attempts := attempts, sentBodies := acc }
  | fuel + 1, attempts0, r, acc =>
    let attempts := attempts0 + 1
    let out := attemptRequestE baseURL clientHeader r method urlPath (transport attempts)
    let r' := { r with request := some out.request }
    let acc' := acc ++ [out.sent]
    match out.result with
    | .nilWithError _e =>
      { outcome := .panicNilDeref, attempts := attempts, sentBodies := acc' }
    | .respOK status =>
      if shouldRetryE r (some status) none = false ∨ maxAttempts ≤ attempts then
        match parseResponseE status with
        | some e => { outcome := .failed e, attempts := attempts, sentBodies := acc' }
        | none => { outcome := .parsedResponse status, attempts := attempts, sentBodies := acc' }
      else
        if 0 < r.retryInterval then
          if cancelledDuringWait attempts then
            { outcome := .ctxCancelled, attempts := attempts, sentBodies := acc' }
          else
            doLoop baseURL clientHeader transport cancelledDuringWait method urlPath
              maxAttempts fuel attempts r' acc'
        else
          doLoop baseURL clientHeader transport cancelledDuringWait method urlPath
            maxAttempts fuel attempts r' acc'

/-- DoRequest (lines 333-392) for a request with an empty middleware list. -/
def doRequestE (baseURL : GoStr) (clientHeader : List (String × String)) (r : MRequest)
    (transport : Nat → TransportResult) (cancelledDuringWait : Nat → Bool)
    (method : String) (urlPath : GoStr) : DoResult :=
  let maxAttempts := maxAttemptsOf r.retryCount
  doLoop baseURL clientHeader transport cancelledDuringWait method urlPath
    maxAttempts maxAttempts 0 r []

/--
Send (lines 321-330): with the embedded request nil or its method empty,
fall back to GET -- but that path evaluates r.Request.Context() first,
which is a method call on a nil *http.Request and dereferences it: a
runtime panic whenever no method or URL was ever configured.
-/
def sendE (baseURL : GoStr) (clientHeader : List (String × String)) (r : MRequest)
    (transport : Nat → TransportResult) (cancelledDuringWait : Nat → Bool)
    (urlPath : GoStr) : DoResult :=
  match r.request with
  | none => { outcome := .panicNilDeref, attempts := 0, sentBodies := [] }
  | some q =>
    if q.method == "" then
      doRequestE baseURL clientHeader r transport cancelledDuringWait "GET" urlPath
    else
      doRequestE baseURL clientHeader r transport cancelledDuringWait q.method urlPath

/-- A transport stub that fails every call at the network level. -/
def alwaysFailingTransport : Nat → TransportResult := fun _ => .netError "connection refused"

/-- A transport stub whose reply always carries status 500. -/
def always500Transport : Nat → TransportResult := fun _ => .reply 500

end Maltose

namespace Maltose

/--
One non-final iteration of the retry loop against a permanently-500
transport on a body-less default-condition request: the attempt counter
advances, the stored request becomes the freshly built one, and a none
body entry is recorded; no wait happens when the interval is not positive.
-/
theorem doLoop_500_step (baseURL : GoStr) (method : String) (urlPath : GoStr)
    (cancelled : Nat → Bool) (maxA fuel attempts0 : Nat) (r : MRequest)
    (acc : List (Option GoStr))
    (hform : r.formParams = []) (hcond : r.retryCondition = none)
    (hint : r.retryInterval ≤ 0)
    (hreq : r.request = none ∨ ∃ m, r.request = some ⟨m, [], none⟩)
    (hA : ¬ maxA ≤ attempts0 + 1) :
    doLoop baseURL [] always500Transport cancelled method urlPath maxA
      (fuel + 1) attempts0 r acc
    = doLoop baseURL [] always500Transport cancelled method urlPath maxA
      fuel (attempts0 + 1)
      { r with request := some { method := method, header := [], body := none } }
      (acc ++ [none]) := by
  rcases hreq with h | ⟨m, h⟩ <;>
    simp [doLoop, attemptRequestE, appendQueryParams, hform, h, hcond, shouldRetryE,
      parseResponseE, headerSetAll, hA, always500Transport,
      if_neg (show ¬ (0 : Int) < r.retryInterval by omega)]

/--
The retry loop against a permanently-500 transport with a non-positive
interval runs its full attempt budget, never consulting the cancellation
signal, and returns the final 500 response.
-/
theorem doLoop_always500_no_wait (baseURL : GoStr) (method : String) (urlPath : GoStr)
    (cancelled : Nat → Bool) (maxA : Nat) :
    ∀ (fuel attempts0 : Nat) (acc : List (Option GoStr)) (r : MRequest),
      r.formParams = [] → r.retryCondition = none → r.retryInterval ≤ 0 →
      (r.request = none ∨ ∃ m, r.request = some ⟨m, [], none⟩) →
      attempts0 + fuel + 1 = maxA →
      doLoop baseURL [] always500Transport cancelled method urlPath maxA
        (fuel + 1) attempts0 r acc
        = { outcome := .parsedResponse 500, attempts := maxA,
            sentBodies := acc ++ List.replicate (fuel + 1) none } := by
  intro fuel
  induction fuel with
  | zero =>
    intro attempts0 acc r hform hcond hint hreq htot
    have hA : maxA ≤ attempts0 + 1 := by omega
    rcases hreq with h | ⟨m, h⟩ <;>
      simp [doLoop, attemptRequestE, appendQueryParams, hform, h, hcond, shouldRetryE,
        parseResponseE, headerSetAll, hA, always500Transport] <;> omega
  | succ n ih =>
    intro attempts0 acc r hform hcond hint hreq htot
    rw [doLoop_500_step baseURL method urlPath cancelled maxA (n + 1) attempts0 r acc
      hform hcond hint hreq (by omega)]
    rw [ih (attempts0 + 1) (acc ++ [none])
      { r with request := some { method := method, header := [], body := none } }
      hform hcond hint (Or.inr ⟨method, rfl⟩) (by omega)]
    simp [List.replicate_succ]

/--
C3: once a retry has been decided (here by a 500 status) and the retry
interval is positive, a cancellation firing during the wait makes
DoRequest return the cancellation outcome at once, after exactly the one
already-issued attempt and not with that attempt's response; with a zero
interval no wait occurs: every attempt is issued immediately and the
cancellation signal is never consulted, whatever it says.
-/
theorem doRequest_cancellation_and_zero_interval :
    (∀ (rc ri : Int) (cancelled : Nat → Bool),
      1 ≤ rc → 0 < ri → cancelled 1 = true →
      doRequestE [] [] (setRetry newRequest rc ri) always500Transport cancelled
        "GET" ("/x".toList)
        = { outcome := .ctxCancelled, attempts := 1, sentBodies := [none] })
    ∧ (∀ (n : Nat) (cancelled : Nat → Bool),
      doRequestE [] [] (setRetry newRequest (n : Int) 0) always500Transport cancelled
        "GET" ("/x".toList)
        = { outcome := .parsedResponse 500, attempts := n + 1,
            sentBodies := List.replicate (n + 1) none }) := by
  constructor
  · intro rc ri cancelled hrc hri hc
    obtain ⟨k, hk⟩ : ∃ k, maxAttemptsOf rc = k + 2 := by
      refine ⟨(rc + 1).toNat - 2, ?_⟩
      simp only [maxAttemptsOf]
      rw [if_neg (by omega)]
      omega
    have hA : ¬ (k + 2 ≤ 1) := by omega
    show doLoop [] [] always500Transport cancelled "GET" ("/x".toList)
        (maxAttemptsOf rc) (maxAttemptsOf rc) 0 (setRetry newRequest rc ri) [] = _
    rw [hk]
    simp [doLoop, attemptRequestE, appendQueryParams, setRetry, newRequest, shouldRetryE,
      parseResponseE, headerSetAll, hA, always500Transport, hc, hri]
  · intro n cancelled
    have hmax : maxAttemptsOf (n : Int) = n + 1 := by
      simp only [maxAttemptsOf]
      rw [if_neg (by omega)]
      omega
    show doLoop [] [] always500Transport cancelled "GET" ("/x".toList)
        (maxAttemptsOf (n : Int)) (maxAttemptsOf (n : Int)) 0
        (setRetry newRequest (n : Int) 0) [] = _
    rw [hmax]
    exact doLoop_always500_no_wait [] "GET" ("/x".toList) cancelled (n + 1) n 0 []
      (setRetry newRequest (n : Int) 0) rfl rfl (Int.le_refl 0) (Or.inl rfl) (by omega)

/--
C3 witness: with one retry allowed, interval 7 and cancellation firing
during the first wait, the run cancels after one attempt; with interval 0
and the signal constantly on, a two-retry run still issues all three
attempts.
-/
theorem doRequest_cancellation_and_zero_interval_witness :
    doRequestE [] [] (setRetry newRequest 1 7) always500Transport (fun k => k == 1)
      "GET" ("/x".toList)
      = { outcome := .ctxCancelled, attempts := 1, sentBodies := [none] }
    ∧ doRequestE [] [] (setRetry newRequest ((2 : Nat) : Int) 0) always500Transport
      (fun _ => true) "GET" ("/x".toList)
      = { outcome := .parsedResponse 500, attempts := 2 + 1,
          sentBodies := List.replicate (2 + 1) none } :=
  ⟨doRequest_cancellation_and_zero_interval.1 1 7 (fun k => k == 1)
      (by decide) (by decide) (by decide),
   doRequest_cancellation_and_zero_interval.2 2 (fun _ => true)⟩

/--
C1: against a transport failing every attempt, DoRequest does not reach
n + 1 attempts with the last error surfaced: the first failed attempt
leaves resp nil, and the shouldRetry call dereferences it — a runtime nil
pointer dereference after exactly one attempt, for positive, zero and
negative retry counts alike (the intended budget for retryCount 2 would
have been 3 attempts).
-/
theorem doRequest_failing_transport_nil_deref :
    maxAttemptsOf 2 = 3
    ∧ doRequestE [] [] (setRetry newRequest 2 0) alwaysFailingTransport (fun _ => false)
      "GET" ("/x".toList)
      = { outcome := .panicNilDeref, attempts := 1, sentBodies := [none] }
    ∧ doRequestE [] [] newRequest alwaysFailingTransport (fun _ => false)
      "GET" ("/x".toList)
      = { outcome := .panicNilDeref, attempts := 1, sentBodies := [none] }
    ∧ doRequestE [] [] (setRetry newRequest (-3) 0) alwaysFailingTransport (fun _ => false)
      "GET" ("/x".toList)
      = { outcome := .panicNilDeref, attempts := 1, sentBodies := [none] } :=
  ⟨by decide, by decide, by decide, by decide⟩

/--
C7: form parameters do take precedence over a set body and are re-encoded
on every attempt, but plain body bytes are not identical across attempts:
line 474 replaces r.Request with the request whose body reader the
transport has just drained, so a request with body hello retried once
against a 500 transport sends hello and then the empty body.
-/
theorem doRequest_retry_body_truncated :
    doRequestE [] [] (setRetry (dataMethod newRequest (.strInput "hello".toList)) 1 0)
      always500Transport (fun _ => false) "POST" ("/x".toList)
      = { outcome := .parsedResponse 500, attempts := 2,
          sentBodies := [some "hello".toList, some []] }
    ∧ [some "hello".toList, some ([] : GoStr)] ≠ [some "hello".toList, some "hello".toList]
    ∧ doRequestE [] []
      (setRetry (setForm (dataMethod newRequest (.strInput "hello".toList)) "a" "b") 1 0)
      always500Transport (fun _ => false) "POST" ("/x".toList)
      = { outcome := .parsedResponse 500, attempts := 2,
          sentBodies := [some (encodeValues [("a", "b")]), some (encodeValues [("a", "b")])] } :=
  ⟨by decide, by decide, by decide⟩

/--
C8 counterexample: a reader handed to Data is not drained into a byte
buffer at materialization time: the stored body is the pass-through wrap
of the caller's stream, still unconsumed, not a library-owned buffer.
-/
theorem data_reader_not_drained_counterexample :
    (dataMethod newRequest (.readerInput ⟨"hello".toList, false⟩)).request
      = some { method := "", header := [],
               body := some (.passthrough ⟨"hello".toList, false⟩) }
    ∧ BodyStream.passthrough ⟨"hello".toList, false⟩
      ≠ BodyStream.owned ⟨"hello".toList, false⟩ :=
  ⟨rfl, by decide⟩

/--
C8 amended: Data stores a reader input as-is (wrapped by io.NopCloser)
without reading from it; draining into re-readable bytes is deferred to
attempt time, when attemptRequest reads the stored stream in full.
-/
theorem data_reader_stored_lazily :
    (∀ (r : MRequest) (s : ByteStream), ∃ q : HttpRequestE,
      (dataMethod r (.readerInput s)).request = some q
      ∧ q.body = some (.passthrough s))
    ∧ (∀ (s : ByteStream) (tr : TransportResult) (method : String) (urlPath : GoStr),
      (attemptRequestE [] [] (dataMethod newRequest (.readerInput s)) method urlPath tr).sent
        = some (s.readAll).1) := by
  constructor
  · intro r s
    cases hreq : r.request with
    | none =>
      exact ⟨{ emptyHttpRequest with body := some (.passthrough s) },
        by simp [dataMethod, hreq], rfl⟩
    | some q0 =>
      exact ⟨{ q0 with body := some (.passthrough s) },
        by simp [dataMethod, hreq], rfl⟩
  · intro s tr method urlPath
    cases tr <;> rfl

/--
C9: a structured body input is serialized to JSON; a serialization failure
only logs and leaves the request unchanged apart from the nil-request
allocation (body unset, still usable, no error surfaced — Data returns the
request itself); on success the bytes become the body, and the content
type defaults to application/json exactly when the caller has not set one.
-/
theorem data_structured_json_policy :
    (∀ (r : MRequest) (q : HttpRequestE), r.request = some q →
      dataMethod r (.structuredInput none) = r)
    ∧ dataMethod newRequest (.structuredInput none)
        = { newRequest with request := some emptyHttpRequest }
    ∧ (∀ (r : MRequest) (q : HttpRequestE) (j : GoStr), r.request = some q →
      headerGet q.header "Content-Type" = "" →
      (dataMethod r (.structuredInput (some j))).request
        = some { q with
            body := some (.owned ⟨j, false⟩),
            header := headerSet q.header "Content-Type" "application/json" })
    ∧ (∀ (r : MRequest) (q : HttpRequestE) (j : GoStr), r.request = some q →
      headerGet q.header "Content-Type" ≠ "" →
      (dataMethod r (.structuredInput (some j))).request
        = some { q with body := some (.owned ⟨j, false⟩) }) := by
  refine ⟨?_, rfl, ?_, ?_⟩
  · intro r q hreq
    cases r
    simp_all [dataMethod]
  · intro r q j hreq hct
    simp [dataMethod, hreq, hct]
  · intro r q j hreq hct
    simp [dataMethod, hreq, hct]

/--
C9 witness: serialization failure leaves a prepared request unchanged;
success on a request without a content type sets application/json, and on
a request with one set leaves the header alone.
-/
theorem data_structured_json_policy_witness :
    dataMethod { newRequest with request := some emptyHttpRequest } (.structuredInput none)
      = { newRequest with request := some emptyHttpRequest }
    ∧ (dataMethod { newRequest with request := some emptyHttpRequest }
        (.structuredInput (some "42".toList))).request
      = some { emptyHttpRequest with
          body := some (.owned ⟨"42".toList, false⟩),
          header := headerSet emptyHttpRequest.header "Content-Type" "application/json" }
    ∧ (dataMethod { newRequest with request := some { emptyHttpRequest with
                      header := [("Content-Type", "text/plain")] } }
        (.structuredInput (some "42".toList))).request
      = some { emptyHttpRequest with
          header := [("Content-Type", "text/plain")],
          body := some (.owned ⟨"42".toList, false⟩) } :=
  ⟨data_structured_json_policy.1 _ emptyHttpRequest rfl,
   data_structured_json_policy.2.2.1 _ emptyHttpRequest ("42".toList) rfl rfl,
   data_structured_json_policy.2.2.2 _
     { emptyHttpRequest with header := [("Content-Type", "text/plain")] }
     ("42".toList) rfl (by decide)⟩

/--
C10: a fresh Request has no embedded http.Request; calling Send on it
takes the default-GET fallback, which evaluates r.Request.Context() on the
nil request — a nil pointer dereference at the public entry point, before
any transport attempt.
-/
theorem send_nil_request_nil_deref :
    newRequest.request = none
    ∧ ∀ (baseURL : GoStr) (clientHeader : List (String × String))
        (transport : Nat → TransportResult) (cancelledDuringWait : Nat → Bool)
        (urlPath : GoStr),
      sendE baseURL clientHeader newRequest transport cancelledDuringWait urlPath
        = { outcome := .panicNilDeref, attempts := 0, sentBodies := [] } :=
  ⟨rfl, fun _ _ _ _ _ => rfl⟩

end Maltose
